import Mathlib

/-!
Verification development for the SteamLy scraper (src/main.py).

The file embeds, at the level of character lists, the pattern-matching
pipeline of the repository: the compiled regular expressions
(VIDEO_SOURCE_PATTERN, REDIRECT_PATTERN_1, REDIRECT_PATTERN_2,
VIDEO_TAG_CHECK), the helpers fix_url and get_high_quality_image, the
video-resolution flow of the /watch endpoint (fetch_video), the listing
and detail status-code gates, and the sliding-window rate limiter
check_rate_limit.  Network responses are passed in explicitly: a fetch
result is either a transport error (a raised exception in Python) or a
response carrying a status code and a body.

The regular expressions are embedded by a small backtracking matcher
with exactly the semantics the Python `re` module gives these patterns:
leftmost search, greedy character-class stars that backtrack, ordered
alternation, and capture groups.  All matcher functions are structurally
recursive so that concrete runs reduce inside the kernel.
-/

/-- Capture environment of one regex match: group number paired with the
captured characters.  More recent bindings are pushed at the front, so
lookup by `List.find?` sees the final value of a group. -/
abbrev Caps : Type := List (Nat × List Char)

/-- Lookup of `match.group(n)`: `none` models Python's `None` for a group
that did not participate in the match. -/
def getGroup (caps : Caps) (n : Nat) : Option (List Char) :=
  (List.find? (fun p => p.1 == n) caps).map (fun p => p.2)

/-- Abstract syntax of the regex fragment the four patterns use:
case-insensitive literals, single characters from a class, greedy star
over a class, ordered alternation, sequencing and capture groups.
A Python `+` over a class is written as the class followed by its star. -/
inductive RE where
  | eps : RE
  | lit (l : List Char) : RE
  | cls (p : Char → Bool) : RE
  | star (p : Char → Bool) : RE
  | seq (a b : RE) : RE
  | alt (a b : RE) : RE
  | grp (n : Nat) (a : RE) : RE

/-- Case-insensitive character comparison, the effect of re.IGNORECASE on
the literal parts of the patterns (Arabic letters are unaffected by
`toLower`, as in Python). -/
def lowEq (a b : Char) : Bool := a.toLower == b.toLower

/-- Case-insensitive "l is a prefix of s". -/
def ciIsPrefix : List Char → List Char → Bool
  | [], _ => true
  | _ :: _, [] => false
  | a :: l, c :: s => lowEq a c && ciIsPrefix l s

/-- Greedy backtracking for a class star: try consuming `m` characters
first (the longest run), then shorter runs, as Python's greedy `*` does. -/
def tryStar (k : List Char → Option (Caps × List Char)) (s : List Char) :
    Nat → Option (Caps × List Char)
  | 0 => k s
  | m + 1 =>
    match k (s.drop (m + 1)) with
    | some r => some r
    | none => tryStar k s m

/-- Backtracking matcher in continuation style.  `matchRE r s caps k`
tries to match `r` at the start of `s`; on each candidate way to match,
the continuation `k` receives the updated captures and the rest of the
input, and a `none` from `k` makes the matcher backtrack, exactly as the
Python engine does. -/
def matchRE : RE → List Char → Caps → (Caps → List Char → Option (Caps × List Char)) →
    Option (Caps × List Char)
  | .eps, s, caps, k => k caps s
  | .lit l, s, caps, k =>
    if ciIsPrefix l s then k caps (s.drop l.length) else none
  | .cls p, s, caps, k =>
    match s with
    | [] => none
    | c :: s' => if p c then k caps s' else none
  | .star p, s, caps, k =>
    tryStar (fun s' => k caps s') s (s.takeWhile p).length
  | .seq a b, s, caps, k =>
    matchRE a s caps (fun caps' s' => matchRE b s' caps' k)
  | .alt a b, s, caps, k =>
    match matchRE a s caps k with
    | some r => some r
    | none => matchRE b s caps k
  | .grp n a, s, caps, k =>
    matchRE a s caps (fun caps' s' => k ((n, s.take (s.length - s'.length)) :: caps') s')

/-- Match a pattern at the very start of `s`, returning the captures and
the input remaining after the match. -/
def matchHere (r : RE) (s : List Char) : Option (Caps × List Char) :=
  matchRE r s [] (fun caps rest => some (caps, rest))

/-- Python `pattern.search(s)`: try the pattern at position 0, 1, 2, ...
and return the leftmost match. -/
def reSearch (r : RE) : List Char → Option (Caps × List Char)
  | [] => matchHere r []
  | c :: s' =>
    match matchHere r (c :: s') with
    | some res => some res
    | none => reSearch r s'

/-- Python `pattern.finditer(s)`: repeated non-overlapping leftmost
search, resuming after the end of each match.  The fuel argument makes
the recursion structural; every pattern in this file begins with a
nonempty literal and therefore consumes at least one character per
match, so fuel `s.length + 1` never runs out and the guard on
`rest.length` never fires. -/
def finditerAux (r : RE) : Nat → List Char → List Caps
  | 0, _ => []
  | fuel + 1, s =>
    match reSearch r s with
    | none => []
    | some (caps, rest) =>
      caps :: (if rest.length < s.length then finditerAux r fuel rest else [])

/-- All matches of `r` in `s`, in order, as capture environments. -/
def finditer (r : RE) (s : List Char) : List Caps :=
  finditerAux r (s.length + 1) s

/-- Sequence a list of regex pieces. -/
def seqList : List RE → RE
  | [] => .eps
  | r :: rs => .seq r (seqList rs)

/-- Character class `[^>]`. -/
def notGt (c : Char) : Bool := c != '>'

/-- Character class `[^"']`. -/
def notQuote (c : Char) : Bool := c != '"' && c != '\''

/-- Character class `["']`. -/
def isQuote (c : Char) : Bool := c == '"' || c == '\''

/-- Character class `\d` (the pages at issue carry ASCII digits; Python's
`\d` would additionally accept non-ASCII decimal digits). -/
def isDig (c : Char) : Bool := c.isDigit

/-- VIDEO_SOURCE_PATTERN (main.py lines 95-98):
`<source[^>]*(?:src=["']([^"']+)["'][^>]*size=["'](\d+)["']|size=["'](\d+)["'][^>]*src=["']([^"']+)["'])`
with re.IGNORECASE.  The group `([^"']+)` is the class followed by its
star inside the capture, and `(\d+)` likewise. -/
def VIDEO_SOURCE_PATTERN : RE :=
  seqList [
    .lit ("<source".data),
    .star notGt,
    .alt
      (seqList [
        .lit ("src=".data), .cls isQuote,
        .grp 1 (seqList [.cls notQuote, .star notQuote]), .cls isQuote,
        .star notGt,
        .lit ("size=".data), .cls isQuote,
        .grp 2 (seqList [.cls isDig, .star isDig]), .cls isQuote])
      (seqList [
        .lit ("size=".data), .cls isQuote,
        .grp 3 (seqList [.cls isDig, .star isDig]), .cls isQuote,
        .star notGt,
        .lit ("src=".data), .cls isQuote,
        .grp 4 (seqList [.cls notQuote, .star notQuote]), .cls isQuote])]

/-- REDIRECT_PATTERN_1 (main.py line 99):
`<a[^>]*href=["']([^"']*ak\.sv/watch[^"']*)["']` with re.IGNORECASE. -/
def REDIRECT_PATTERN_1 : RE :=
  seqList [
    .lit ("<a".data),
    .star notGt,
    .lit ("href=".data), .cls isQuote,
    .grp 1 (seqList [.star notQuote, .lit ("ak.sv/watch".data), .star notQuote]),
    .cls isQuote]

/-- REDIRECT_PATTERN_2 (main.py line 100):
`<a[^>]*href=["']([^"']+)["'][^>]*>(?:اضغط هنا|Click here)` with
re.IGNORECASE. -/
def REDIRECT_PATTERN_2 : RE :=
  seqList [
    .lit ("<a".data),
    .star notGt,
    .lit ("href=".data), .cls isQuote,
    .grp 1 (seqList [.cls notQuote, .star notQuote]), .cls isQuote,
    .star notGt,
    .lit (">".data),
    .alt (.lit ("اضغط هنا".data)) (.lit ("Click here".data))]

/-- VIDEO_TAG_CHECK (main.py line 101):
`<video[^>]*id=["']player["']` with re.IGNORECASE. -/
def VIDEO_TAG_CHECK : RE :=
  seqList [
    .lit ("<video".data),
    .star notGt,
    .lit ("id=".data), .cls isQuote,
    .lit ("player".data), .cls isQuote]

example : (reSearch VIDEO_TAG_CHECK (("<p>x</p><video muted id='player'>".data))).isSome = true := by
  decide

example : reSearch VIDEO_TAG_CHECK (("<p>no player here</p>".data)) = none := by
  decide

/-! ## Data model -/

/-- One entry of the `videos` list built by extract_videos_ultra_fast
(main.py lines 368-372): `{"quality": f"{size}p", "link": src, "type": "mp4"}`. -/
structure ResolvedVideo where
  quality : List Char
  link : List Char
  type : List Char
deriving DecidableEq

/-- Result value of the fetch_video closure (main.py lines 391-416):
either `{"status": "success", "original_url": u, "videos": vs}` or
`{"status": "failed", "message": m}`. -/
inductive Outcome where
  | success (original_url : List Char) (videos : List ResolvedVideo) : Outcome
  | failed (message : List Char) : Outcome
deriving DecidableEq

/-- Upstream HTTP response as the scraper sees it: `resp.status_code`
and `resp.text`. -/
structure Response where
  status : Nat
  body : List Char
deriving DecidableEq

/-- FastAPI HTTPException with status code and detail string. -/
structure HTTPException where
  status_code : Nat
  detail : List Char
deriving DecidableEq

deriving instance DecidableEq for Except

/-- Result of one `scraper.get` call: `.error e` models the call raising a
transport exception with message `e`, `.ok resp` a delivered response of
any status code. -/
abbrev Fetched : Type := Except (List Char) Response

/-! ## Helper functions -/

/-- BASE_URL (main.py line 77). -/
def BASE_URL : List Char := "https://ak.sv".data

/-- fix_url (main.py lines 121-124). -/
def fix_url (url : List Char) : List Char :=
  if List.isPrefixOf ("http".data) url then url
  else if List.isPrefixOf ("/".data) url then BASE_URL ++ url
  else BASE_URL ++ ("/".data) ++ url

/-- Python's `x or y` on optional strings: `None` and the empty string
are falsy and fall through to `y`. -/
def pyOr (a b : Option (List Char)) : Option (List Char) :=
  match a with
  | none => b
  | some s => if s = [] then b else some s

/-- Python truthiness of an optional string. -/
def pyTruthy : Option (List Char) → Bool
  | none => false
  | some s => s != []

/-! ## Video extraction and redirect search -/

/-- extract_videos_ultra_fast (main.py lines 361-373): for every match of
VIDEO_SOURCE_PATTERN take `src = group(1) or group(4)` and
`size = group(2) or group(3)`; when both are truthy emit one entry with
quality `f"{size}p"`, the source link, and type "mp4".  The `getD []`
defaults are unreachable: when the truthiness test passes both options
are `some`. -/
def extract_videos_ultra_fast (html : List Char) : List ResolvedVideo :=
  (finditer VIDEO_SOURCE_PATTERN html).filterMap (fun caps =>
    let src := pyOr (getGroup caps 1) (getGroup caps 4)
    let size := pyOr (getGroup caps 2) (getGroup caps 3)
    if pyTruthy src && pyTruthy size then
      some { quality := (size.getD []) ++ ("p".data),
             link := src.getD [],
             type := "mp4".data }
    else none)

/-- find_redirect_ultra_fast (main.py lines 375-383): REDIRECT_PATTERN_1
first, then REDIRECT_PATTERN_2, returning `match.group(1)`.  Group 1 is
on the mandatory path of both patterns, so the `getD []` default is
unreachable; and both groups contain a nonempty mandatory part, so the
returned string is nonempty, which keeps the Python `if not redirect_url`
falsiness test equivalent to an `Option` test. -/
def find_redirect_ultra_fast (html : List Char) : Option (List Char) :=
  match reSearch REDIRECT_PATTERN_1 html with
  | some (caps, _) => some ((getGroup caps 1).getD [])
  | none =>
    match reSearch REDIRECT_PATTERN_2 html with
    | some (caps, _) => some ((getGroup caps 1).getD [])
    | none => none

/-! ## The /watch resolution flow -/

/-- Redirect half of the fetch_video closure (main.py lines 402-416),
which uses the first page only through find_redirect_ultra_fast: on a
found redirect it fixes the URL, issues the second fetch (`r2`) with the
final URL as referer, and extracts sources from the final page.  The
second component counts the upstream fetches this phase performs (0 or 1). -/
def redirect_phase (redirectOpt : Option (List Char)) (r2 : Fetched) :
    Except (List Char) Outcome × Nat :=
  match redirectOpt with
  | none => (.ok (.failed ("Direct link not found".data)), 0)
  | some ru =>
    let final_url := fix_url ru
    match r2 with
    | .error e => (.error e, 1)
    | .ok resp2 =>
      let videos := extract_videos_ultra_fast resp2.body
      if videos ≠ [] then (.ok (.success final_url videos), 1)
      else (.ok (.failed ("No video sources found".data)), 1)

/-- The fetch_video closure (main.py lines 391-416) over explicit fetch
results: `r1` is the result of the first `scraper.get(url)`, `r2` of the
second one should a redirect be followed.  The second component counts
the upstream fetch attempts (a raised transport error still counts the
attempt that raised it).  The status code of a response is never
inspected.  The `direct` option mirrors lines 397-400: with a native
player tag present and a nonempty extraction the success returns
immediately, otherwise control falls through to the redirect search. -/
def fetch_video (url : List Char) (r1 r2 : Fetched) :
    Except (List Char) Outcome × Nat :=
  match r1 with
  | .error e => (.error e, 1)
  | .ok resp =>
    let html := resp.body
    let direct :=
      if (reSearch VIDEO_TAG_CHECK html).isSome then
        let videos := extract_videos_ultra_fast html
        if videos ≠ [] then some (Outcome.success url videos) else none
      else none
    match direct with
    | some o => (.ok o, 1)
    | none =>
      let pr := redirect_phase (find_redirect_ultra_fast html) r2
      (pr.1, 1 + pr.2)

/-- The /watch endpoint body (main.py lines 385-421): fixes the incoming
URL, runs fetch_video, and converts any raised exception into
HTTPException(500, f"Error: {e}"). -/
def watch_video (url : List Char) (r1 r2 : Fetched) :
    Except HTTPException Outcome :=
  match fetch_video (fix_url url) r1 r2 with
  | (.ok o, _) => .ok o
  | (.error e, _) => .error ⟨500, ("Error: ".data) ++ e⟩

/-! ## Listing and detail status gates -/

/-- Body of fetch_page inside the try block (main.py lines 160-173).  The
BeautifulSoup work (parse_grid and the rel="next" probe) is traversal of
a parsed HTML tree, outside a faithful string-level embedding, so the
two parsers are taken as parameters; the claims against this definition
concern only the status-code gate, which holds for every parser. -/
def fetch_pageInner (parse : List Char → List (List Char))
    (hasNext : List Char → Bool) (resp : Response) :
    Except HTTPException (Bool × Nat × List (List Char)) :=
  if resp.status ≠ 200 then .error ⟨404, "Page not found".data⟩
  else .ok (hasNext resp.body, (parse resp.body).length, parse resp.body)

/-- fetch_page (main.py lines 159-175): the try/except wrapper turns the
raised HTTPException (Starlette renders it as "404: Page not found")
into HTTPException(500, f"Error: {e}"). -/
def fetch_page (parse : List Char → List (List Char))
    (hasNext : List Char → Bool) (resp : Response) :
    Except HTTPException (Bool × Nat × List (List Char)) :=
  match fetch_pageInner parse hasNext resp with
  | .ok v => .ok v
  | .error e =>
    .error ⟨500, ("Error: ".data) ++ (toString e.status_code).data ++ (": ".data) ++ e.detail⟩

/-- Body of the fetch closure of movie_details and series_details
(main.py lines 305-322 and 334-353): the status gate raising
HTTPException(404, "Content not found"), followed by building the
details record from the body; the record builder is a parameter for the
same reason as in fetch_pageInner. -/
def detail_fetchInner {α : Type} (build : List Char → α) (resp : Response) :
    Except HTTPException α :=
  if resp.status ≠ 200 then .error ⟨404, "Content not found".data⟩
  else .ok (build resp.body)

/-! ## Rate limiter -/

/-- check_rate_limit (main.py lines 35-45) for one client identity, over
the identity's stored timestamp list and the current time (time.time()
values — real-valued instants of which only ordering and differences
matter here, modelled as integer time units): keep the entries with
`current_time - req_time < window`, deny when the kept count has reached
`max_requests`, otherwise append the current time and allow. -/
def check_rate_limit (now : ℤ) (max_requests : Nat) (window : ℤ)
    (times : List ℤ) : Bool × List ℤ :=
  let kept := times.filter (fun t => now - t < window)
  if max_requests ≤ kept.length then (false, kept)
  else (true, kept ++ [now])

/-- Iterated admission checks for one identity at the given instants,
threading the stored timestamp list. -/
def runChecks (max_requests : Nat) (window : ℤ) :
    List ℤ → List ℤ → List Bool × List ℤ
  | [], st => ([], st)
  | t :: ts, st =>
    let r := check_rate_limit t max_requests window st
    let rest := runChecks max_requests window ts r.2
    (r.1 :: rest.1, rest.2)

/-! ## Image normalization -/

/-- Test for a match of the pattern `w` followed by at least one
character outside `[/]`, at the head of `s`; for `w = "/thumb/"` this is
a match of `re.sub`'s pattern `/thumb/[^/]+` at the head. -/
def startsPat (w s : List Char) : Bool :=
  List.isPrefixOf w s &&
    (match s.drop w.length with
     | [] => false
     | c :: _ => c != '/')

/-- Head match of `/thumb/[^/]+` (the pattern of get_high_quality_image,
main.py line 128; no IGNORECASE flag, so matching is case-sensitive). -/
def thumbAt (s : List Char) : Bool := startsPat ("/thumb/".data) s

/-- The effect of `re.sub(r'/thumb/[^/]+', '', s)`: scan left to right;
at a match delete the literal `/thumb/` plus the following maximal run
of non-`/` characters and resume after it, otherwise keep the character. -/
def stripThumb : List Char → List Char
  | [] => []
  | c :: r =>
    if thumbAt (c :: r) then
      stripThumb ((c :: r).drop (7 + (((c :: r).drop 7).takeWhile (fun d => d != '/')).length))
    else c :: stripThumb r
termination_by s => s.length
decreasing_by
  · simp only [List.length_drop, List.length_cons]
    omega
  · simp only [List.length_cons]
    omega

/-- get_high_quality_image (main.py lines 126-128): the empty string is
falsy and returned as is, otherwise the thumbnail segment is deleted. -/
def get_high_quality_image (img_url : List Char) : List Char :=
  if img_url = [] then [] else stripThumb img_url

/-- Absence of any occurrence of `/thumb/[^/]+`: no suffix of `s` starts
with one.  This is the "already-normalized, no thumbnail path segment"
condition. -/
def noThumbIn : List Char → Bool
  | [] => true
  | c :: r => !thumbAt (c :: r) && noThumbIn r

/-! ## Resolution cache

Modelled from the spec: the Resolution Cache (spec §3 CacheEntry, §4.4)
is code of the repository that is not under src/ — src/main.py is the
latest of the rewrites and carries no cache around its /watch flow — so
the cache and its use by resolve_watch are modelled from the spec's
words: get returns the cached outcome if present and not older than the
fixed one-hour TTL, else reports a miss and removes a stale entry; put
stores the outcome with the current timestamp, unconditionally
overwriting; only success outcomes are written back. -/

/-- Modelled from the spec: CacheEntry (§3), an outcome with its creation
timestamp. -/
structure CacheEntry where
  outcome : Outcome
  created : ℤ
deriving DecidableEq

/-- Modelled from the spec: the fixed TTL of one hour (§4.4), in seconds. -/
def CACHE_TTL : ℤ := 3600

/-- Cache contents: URL-keyed entries, most recent first. -/
abbrev Cache : Type := List (List Char × CacheEntry)

/-- Lookup of the entry stored for a key, ignoring age. -/
def cache_lookup (cache : Cache) (key : List Char) : Option CacheEntry :=
  (List.find? (fun p => p.1 == key) cache).map (fun p => p.2)

/-- Modelled from the spec: get(key) (§4.4) — the cached outcome when
present and not older than the TTL, otherwise a miss, deleting the entry
found expired. -/
def cache_get (cache : Cache) (key : List Char) (now : ℤ) :
    Option Outcome × Cache :=
  match cache_lookup cache key with
  | none => (none, cache)
  | some e =>
    if now - e.created ≤ CACHE_TTL then (some e.outcome, cache)
    else (none, cache.filter (fun p => !(p.1 == key)))

/-- Modelled from the spec: put(key, outcome) (§4.4), storing with the
current timestamp and unconditionally overwriting any prior entry. -/
def cache_put (cache : Cache) (key : List Char) (o : Outcome) (now : ℤ) : Cache :=
  (key, ⟨o, now⟩) :: cache.filter (fun p => !(p.1 == key))

/-- Success test on an outcome. -/
def Outcome.isSuccess : Outcome → Bool
  | .success _ _ => true
  | .failed _ => false

/-- Modelled from the spec: resolve_watch with the Resolution Cache in
front (§2 control flow, §4.4, §3 CacheEntry lifecycle): look the URL up
first and serve a fresh entry with no fetches; on a miss run the
fetch_video flow and write back the outcome only when it is a success.
The components are the outcome, the number of upstream fetches, and the
cache afterwards. -/
def resolve_watch_cached (cache : Cache) (url : List Char) (now : ℤ)
    (r1 r2 : Fetched) : Except (List Char) Outcome × Nat × Cache :=
  match cache_get cache url now with
  | (some o, c') => (.ok o, 0, c')
  | (none, c') =>
    match fetch_video url r1 r2 with
    | (.ok o, n) => (.ok o, n, if o.isSuccess then cache_put c' url o now else c')
    | (.error e, n) => (.error e, n, c')

/-! ## Theorems -/

/-- Fetch count of the redirect phase is zero or one. -/
theorem redirect_phase_snd_le (ro : Option (List Char)) (r2 : Fetched) :
    (redirect_phase ro r2).2 ≤ 1 := by
  unfold redirect_phase
  cases ro with
  | none => simp
  | some ru =>
    cases r2 with
    | error e => simp
    | ok resp => dsimp only; split <;> simp

/-- Fetch count of one fetch_video run is one or two. -/
theorem fetch_video_snd_bounds (u : List Char) (r1 r2 : Fetched) :
    1 ≤ (fetch_video u r1 r2).2 ∧ (fetch_video u r1 r2).2 ≤ 2 := by
  unfold fetch_video
  cases r1 with
  | error e => simp
  | ok resp =>
    dsimp only
    split
    · simp
    · refine ⟨by omega, ?_⟩
      have h := redirect_phase_snd_le (find_redirect_ultra_fast resp.body) r2
      omega

/-- C3: for every input URL and every pair of fetch results, one
resolve_watch call performs at most two upstream fetches (and at least
one); a transport failure of the first fetch ends the call at one fetch
with the error propagated, never retried, and the endpoint surfaces it
as a generic 500 "Error: ..." response; a transport failure of the
second fetch likewise propagates as the result of the call. -/
theorem c3_at_most_two_fetches (u : List Char) (r1 r2 : Fetched) :
    (1 ≤ (fetch_video u r1 r2).2 ∧ (fetch_video u r1 r2).2 ≤ 2)
    ∧ (∀ e, r1 = .error e → fetch_video u r1 r2 = (.error e, 1))
    ∧ (∀ e, r2 = .error e → (fetch_video u r1 r2).2 = 2 →
        (fetch_video u r1 r2).1 = .error e)
    ∧ (∀ e, r1 = .error e →
        watch_video u r1 r2 = .error ⟨500, ("Error: ".data) ++ e⟩) := by
  refine ⟨fetch_video_snd_bounds u r1 r2, ?_, ?_, ?_⟩
  · intro e he
    subst he
    rfl
  · intro e he h2
    subst he
    unfold fetch_video at h2 ⊢
    cases r1 with
    | error e1 => simp at h2
    | ok resp =>
      dsimp only at h2 ⊢
      split at h2
      · simp at h2
      · dsimp only
        unfold redirect_phase at h2 ⊢
        cases hro : find_redirect_ultra_fast resp.body with
        | none => rw [hro] at h2; simp at h2
        | some ru => simp
  · intro e he
    subst he
    rfl

/-- C10: fetch_video never inspects the status code of either response —
its result depends only on the two bodies — while the listing gate
(fetch_page) and the movie/series detail gate raise the not-found
HTTPException whenever the upstream status is not 200, for every parser
and record builder. -/
theorem c10_status_code_handling :
    (∀ (u b1 b2 : List Char) (s1 s1' s2 s2' : Nat),
       fetch_video u (.ok ⟨s1, b1⟩) (.ok ⟨s2, b2⟩)
         = fetch_video u (.ok ⟨s1', b1⟩) (.ok ⟨s2', b2⟩))
    ∧ (∀ parse hasNext resp, resp.status ≠ 200 →
        fetch_pageInner parse hasNext resp = .error ⟨404, ("Page not found".data)⟩)
    ∧ (∀ (α : Type) (build : List Char → α) resp, resp.status ≠ 200 →
        detail_fetchInner build resp = .error ⟨404, ("Content not found".data)⟩) := by
  refine ⟨?_, ?_, ?_⟩
  · intro u b1 b2 s1 s1' s2 s2'
    rfl
  · intro parse hasNext resp h
    unfold fetch_pageInner
    simp [h]
  · intro α build resp h
    unfold detail_fetchInner
    simp [h]

/-- C5: on a page carrying neither the native-player marker nor an
anchor matched by either redirect pattern, resolve_watch returns the
failed outcome with the redirect-not-found reason "Direct link not
found", and exactly one upstream fetch occurs, whatever a second fetch
would have returned. -/
theorem c5_failed_when_nothing_found (u : List Char) (st : Nat)
    (h : List Char) (r2 : Fetched) :
    reSearch VIDEO_TAG_CHECK h = none →
    reSearch REDIRECT_PATTERN_1 h = none →
    reSearch REDIRECT_PATTERN_2 h = none →
    fetch_video u (.ok ⟨st, h⟩) r2
      = (.ok (.failed ("Direct link not found".data)), 1) := by
  intro h1 h2 h3
  unfold fetch_video find_redirect_ultra_fast
  simp [h1, h2, h3, redirect_phase]

/-- C9: when the fetched page contains the native-player marker but the
source extractor finds nothing, resolve_watch does not fail there: the
call reduces to the redirect phase applied to the page's redirect
search (first conjunct), exactly as it does for a page with no player
marker at all (second conjunct); in particular two such pages with the
same redirect-search result produce identical outcomes and fetch counts
(third conjunct), and the redirect phase may issue the second fetch. -/
theorem c9_empty_extraction_falls_through (u : List Char) (st st' : Nat)
    (h h' : List Char) (r2 : Fetched) :
    (reSearch VIDEO_TAG_CHECK h).isSome = true →
    extract_videos_ultra_fast h = [] →
    (reSearch VIDEO_TAG_CHECK h').isSome = false →
    (fetch_video u (.ok ⟨st, h⟩) r2
        = ((redirect_phase (find_redirect_ultra_fast h) r2).1,
           1 + (redirect_phase (find_redirect_ultra_fast h) r2).2))
    ∧ (fetch_video u (.ok ⟨st', h'⟩) r2
        = ((redirect_phase (find_redirect_ultra_fast h') r2).1,
           1 + (redirect_phase (find_redirect_ultra_fast h') r2).2))
    ∧ (find_redirect_ultra_fast h = find_redirect_ultra_fast h' →
       fetch_video u (.ok ⟨st, h⟩) r2 = fetch_video u (.ok ⟨st', h'⟩) r2) := by
  intro hm hv hm'
  have e1 : fetch_video u (.ok ⟨st, h⟩) r2
      = ((redirect_phase (find_redirect_ultra_fast h) r2).1,
         1 + (redirect_phase (find_redirect_ultra_fast h) r2).2) := by
    unfold fetch_video
    simp [hm, hv]
  have e2 : fetch_video u (.ok ⟨st', h'⟩) r2
      = ((redirect_phase (find_redirect_ultra_fast h') r2).1,
         1 + (redirect_phase (find_redirect_ultra_fast h') r2).2) := by
    unfold fetch_video
    simp [hm']
  refine ⟨e1, e2, ?_⟩
  intro hr
  rw [e1, e2, hr]

/-- Concatenation fact used to display the synthesized quality labels. -/
theorem quality720_append : ("720".data) ++ ("p".data) = ("720p".data) := by decide

/-- Concatenation fact used to display the synthesized quality labels. -/
theorem quality1080_append : ("1080".data) ++ ("p".data) = ("1080p".data) := by decide

/-- C4: on a page carrying the native-player marker whose source scan
yields exactly two declarations, one with a nonempty src and size "720"
and one with a nonempty src and size "1080" — the group pairs 1/4 and
2/3 make the hypotheses order-independent, covering both attribute
orders — resolve_watch succeeds with exactly the two ResolvedVideo
entries of quality "720p" and "1080p" and type "mp4", the success
carries the watch URL itself, only one fetch happens, and no redirect is
followed (the result is the same for every second fetch result). -/
theorem c4_two_sources_direct_success (u : List Char) (st : Nat) (h : List Char)
    (r2 : Fetched) (caps1 caps2 : Caps) (l1 l2 : List Char) :
    (reSearch VIDEO_TAG_CHECK h).isSome = true →
    finditer VIDEO_SOURCE_PATTERN h = [caps1, caps2] →
    pyOr (getGroup caps1 1) (getGroup caps1 4) = some l1 → l1 ≠ [] →
    pyOr (getGroup caps1 2) (getGroup caps1 3) = some ("720".data) →
    pyOr (getGroup caps2 1) (getGroup caps2 4) = some l2 → l2 ≠ [] →
    pyOr (getGroup caps2 2) (getGroup caps2 3) = some ("1080".data) →
    fetch_video u (.ok ⟨st, h⟩) r2
      = (.ok (.success u
           [⟨("720p".data), l1, ("mp4".data)⟩,
            ⟨("1080p".data), l2, ("mp4".data)⟩]), 1) := by
  intro hm hf hs1 hl1 hz1 hs2 hl2 hz2
  have hv : extract_videos_ultra_fast h
      = [⟨("720p".data), l1, ("mp4".data)⟩, ⟨("1080p".data), l2, ("mp4".data)⟩] := by
    unfold extract_videos_ultra_fast
    rw [hf]
    simp only [List.filterMap_cons, List.filterMap_nil, hs1, hs2, hz1, hz2]
    simp [pyTruthy, hl1, hl2, quality720_append, quality1080_append]
  unfold fetch_video
  simp [hm, hv]

/-- Page containing both a "click here" anchor (first in document order)
and an anchor whose href carries the site's /watch segment. -/
def pageBothAnchors : List Char :=
  "<a href=\"https://e.com/z\">Click here</a><a href=\"https://ak.sv/watch/55/s\">w</a>".data

/-- Page whose only redirect anchor carries the Arabic "click here"
phrase. -/
def pageArabicAnchor : List Char :=
  "<a href=\"https://go.example/j\">اضغط هنا</a>".data

/-- Page whose only redirect anchor carries the phrase CLICK HERE in
capitals. -/
def pageUpperAnchor : List Char :=
  "<a href=\"https://go.example/k\">CLICK HERE</a>".data

/-- C6: the redirect search applies its two patterns in strict priority
order — whenever REDIRECT_PATTERN_1 (href containing the site's /watch
segment) matches, its target is returned with REDIRECT_PATTERN_2 never
consulted; only when it finds nothing is the "click here" pattern's
target returned; when neither matches the search returns nothing.  On
pageBothAnchors, where a "click here" anchor precedes the /watch anchor,
the /watch target still wins; the "click here" phrase is accepted in the
Arabic form and case-insensitively (CLICK HERE). -/
theorem c6_redirect_priority :
    (∀ h caps rest, reSearch REDIRECT_PATTERN_1 h = some (caps, rest) →
       find_redirect_ultra_fast h = some ((getGroup caps 1).getD []))
    ∧ (∀ h, reSearch REDIRECT_PATTERN_1 h = none →
       find_redirect_ultra_fast h
         = (reSearch REDIRECT_PATTERN_2 h).map (fun pr => (getGroup pr.1 1).getD []))
    ∧ (∀ h, reSearch REDIRECT_PATTERN_1 h = none →
       reSearch REDIRECT_PATTERN_2 h = none →
       find_redirect_ultra_fast h = none)
    ∧ find_redirect_ultra_fast pageBothAnchors = some ("https://ak.sv/watch/55/s".data)
    ∧ find_redirect_ultra_fast pageArabicAnchor = some ("https://go.example/j".data)
    ∧ find_redirect_ultra_fast pageUpperAnchor = some ("https://go.example/k".data) := by
  refine ⟨?_, ?_, ?_, by decide, by decide, by decide⟩
  · intro h caps rest hp
    unfold find_redirect_ultra_fast
    rw [hp]
  · intro h hp
    unfold find_redirect_ultra_fast
    rw [hp]
    cases hq : reSearch REDIRECT_PATTERN_2 h with
    | none => simp
    | some pr => cases pr with | mk caps rest => simp
  · intro h hp hq
    unfold find_redirect_ultra_fast
    rw [hp, hq]

/-- Shape of the redirect-phase result when the second fetch delivers a
page: a success with the fixed redirect target and nonempty sources, or
one of the two failure reasons. -/
theorem redirect_case_shape (u h2 : List Char) (s2 : Nat) (ro : Option (List Char)) :
    ∃ o, (redirect_phase ro (.ok ⟨s2, h2⟩)).1 = .ok o
      ∧ ((∃ u' vs, o = .success u' vs ∧ vs ≠ []
            ∧ (u' = u ∨ ∃ t, ro = some t ∧ u' = fix_url t))
         ∨ (∃ m, o = .failed m
            ∧ (m = ("Direct link not found".data) ∨ m = ("No video sources found".data)))) := by
  unfold redirect_phase
  cases ro with
  | none =>
    exact ⟨.failed ("Direct link not found".data), rfl,
      Or.inr ⟨_, rfl, Or.inl rfl⟩⟩
  | some t =>
    by_cases hv2 : extract_videos_ultra_fast h2 = []
    · refine ⟨.failed ("No video sources found".data), by simp [hv2], ?_⟩
      exact Or.inr ⟨_, rfl, Or.inr rfl⟩
    · refine ⟨.success (fix_url t) (extract_videos_ultra_fast h2), by simp [hv2], ?_⟩
      exact Or.inl ⟨_, _, rfl, hv2, Or.inr ⟨t, rfl, rfl⟩⟩

/-- C2 (amended): with both pages fetched, resolve_watch returns exactly
one of a success outcome with a nonempty list of sources — carrying the
watch URL itself when the first page embeds the sources, and the
followed redirect target otherwise — or a failed outcome with one of the
two human-readable reasons; a success never has an empty source list. -/
theorem c2_outcome_shape (u h1 h2 : List Char) (s1 s2 : Nat) :
    ∃ o, (fetch_video u (.ok ⟨s1, h1⟩) (.ok ⟨s2, h2⟩)).1 = .ok o
      ∧ ((∃ u' vs, o = .success u' vs ∧ vs ≠ []
            ∧ (u' = u ∨ ∃ t, find_redirect_ultra_fast h1 = some t ∧ u' = fix_url t))
         ∨ (∃ m, o = .failed m
            ∧ (m = ("Direct link not found".data) ∨ m = ("No video sources found".data)))) := by
  unfold fetch_video
  dsimp only
  by_cases hm : (reSearch VIDEO_TAG_CHECK h1).isSome = true
  · by_cases hv : extract_videos_ultra_fast h1 = []
    · simp only [hm, if_true, hv, ne_eq, not_true_eq_false, if_false]
      exact redirect_case_shape u h2 s2 (find_redirect_ultra_fast h1)
    · refine ⟨.success u (extract_videos_ultra_fast h1), ?_, ?_⟩
      · simp [hm, hv]
      · exact Or.inl ⟨u, extract_videos_ultra_fast h1, rfl, hv, Or.inl rfl⟩
  · simp only [hm, if_false]
    exact redirect_case_shape u h2 s2 (find_redirect_ultra_fast h1)

/-- Watch page whose only useful content is an anchor to a different
watch URL on the site. -/
def redirectOnlyPage : List Char :=
  "<a href=\"https://ak.sv/watch/9/x\">go</a>".data

/-- Final page behind the redirect, carrying one source declaration. -/
def finalSourcePage : List Char :=
  "<source src=\"https://cdn/v.mp4\" size=\"720\">".data

/-- C2 counterexample: resolving the watch URL https://ak.sv/video/1
against redirectOnlyPage succeeds, but the success outcome carries the
followed redirect target https://ak.sv/watch/9/x, not the original
watch-page URL, refuting the claim that a success always carries the
original watch-page URL. -/
theorem c2_success_not_original_url :
    (fetch_video ("https://ak.sv/video/1".data)
        (.ok ⟨200, redirectOnlyPage⟩) (.ok ⟨200, finalSourcePage⟩)).1
      = .ok (.success ("https://ak.sv/watch/9/x".data)
          [⟨("720p".data), ("https://cdn/v.mp4".data), ("mp4".data)⟩])
    ∧ ("https://ak.sv/watch/9/x".data) ≠ ("https://ak.sv/video/1".data) := by
  constructor
  · decide
  · decide

/-- Witness for c3_at_most_two_fetches at a concrete transport failure:
the failed first fetch ends the call at one fetch with the error
propagated, and the endpoint wraps it into a 500. -/
theorem c3_at_most_two_fetches_witness :
    fetch_video ("u".data) (.error ("boom".data)) (.ok ⟨200, []⟩)
      = (.error ("boom".data), 1)
    ∧ watch_video ("u".data) (.error ("boom".data)) (.ok ⟨200, []⟩)
      = .error ⟨500, ("Error: ".data) ++ ("boom".data)⟩ :=
  ⟨(c3_at_most_two_fetches ("u".data) (.error ("boom".data)) (.ok ⟨200, []⟩)).2.1
      ("boom".data) rfl,
   (c3_at_most_two_fetches ("u".data) (.error ("boom".data)) (.ok ⟨200, []⟩)).2.2.2
      ("boom".data) rfl⟩

/-- Witness for c10_status_code_handling: a 503 listing response and a
503 detail response both raise the 404 HTTPException. -/
theorem c10_status_code_handling_witness :
    (503 : Nat) ≠ 200
    ∧ fetch_pageInner (fun _ => []) (fun _ => false) ⟨503, []⟩
        = .error ⟨404, ("Page not found".data)⟩
    ∧ detail_fetchInner (fun b => b) ⟨503, []⟩
        = .error ⟨404, ("Content not found".data)⟩ :=
  ⟨by decide,
   c10_status_code_handling.2.1 (fun _ => []) (fun _ => false) ⟨503, []⟩ (by decide),
   c10_status_code_handling.2.2 (List Char) (fun b => b) ⟨503, []⟩ (by decide)⟩

/-- Page with no player marker and no redirect anchor of either kind. -/
def plainPage : List Char := "<p>nothing useful here</p>".data

/-- Witness for c5_failed_when_nothing_found on plainPage. -/
theorem c5_failed_when_nothing_found_witness :
    reSearch VIDEO_TAG_CHECK plainPage = none
    ∧ reSearch REDIRECT_PATTERN_1 plainPage = none
    ∧ reSearch REDIRECT_PATTERN_2 plainPage = none
    ∧ fetch_video ("u".data) (.ok ⟨200, plainPage⟩) (.ok ⟨200, []⟩)
        = (.ok (.failed ("Direct link not found".data)), 1) :=
  ⟨by decide, by decide, by decide,
   c5_failed_when_nothing_found ("u".data) 200 plainPage (.ok ⟨200, []⟩)
     (by decide) (by decide) (by decide)⟩

/-- Page with the native-player marker but no source declaration. -/
def playerNoSourcesPage : List Char := "<video id=\"player\"></video>".data

/-- Witness for c9_empty_extraction_falls_through: playerNoSourcesPage
has the marker and an empty extraction, and the call reduces to the
redirect phase just like the marker-free plainPage. -/
theorem c9_empty_extraction_falls_through_witness :
    (reSearch VIDEO_TAG_CHECK playerNoSourcesPage).isSome = true
    ∧ extract_videos_ultra_fast playerNoSourcesPage = []
    ∧ (reSearch VIDEO_TAG_CHECK plainPage).isSome = false
    ∧ fetch_video ("u".data) (.ok ⟨200, playerNoSourcesPage⟩) (.ok ⟨200, []⟩)
        = ((redirect_phase (find_redirect_ultra_fast playerNoSourcesPage) (.ok ⟨200, []⟩)).1,
           1 + (redirect_phase (find_redirect_ultra_fast playerNoSourcesPage) (.ok ⟨200, []⟩)).2) :=
  ⟨by decide, by decide, by decide,
   (c9_empty_extraction_falls_through ("u".data) 200 200 playerNoSourcesPage plainPage
      (.ok ⟨200, []⟩) (by decide) (by decide) (by decide)).1⟩

/-- Page with the native-player marker and two source declarations, the
first with the src attribute before size, the second with size before
src. -/
def twoSourcesPage : List Char :=
  "<video id=\"player\"></video><source src=\"https://s/a.mp4\" size=\"720\"><source size=\"1080\" src=\"https://s/b.mp4\">".data

/-- Witness for c4_two_sources_direct_success on twoSourcesPage, whose
two source declarations use the two attribute orders. -/
theorem c4_two_sources_direct_success_witness :
    (reSearch VIDEO_TAG_CHECK twoSourcesPage).isSome = true
    ∧ finditer VIDEO_SOURCE_PATTERN twoSourcesPage
        = [[(2, ("720".data)), (1, ("https://s/a.mp4".data))],
           [(4, ("https://s/b.mp4".data)), (3, ("1080".data))]]
    ∧ fetch_video ("https://ak.sv/watch/1".data) (.ok ⟨200, twoSourcesPage⟩) (.ok ⟨200, []⟩)
        = (.ok (.success ("https://ak.sv/watch/1".data)
            [⟨("720p".data), ("https://s/a.mp4".data), ("mp4".data)⟩,
             ⟨("1080p".data), ("https://s/b.mp4".data), ("mp4".data)⟩]), 1) :=
  ⟨by decide, by decide,
   c4_two_sources_direct_success ("https://ak.sv/watch/1".data) 200 twoSourcesPage
     (.ok ⟨200, []⟩)
     [(2, ("720".data)), (1, ("https://s/a.mp4".data))]
     [(4, ("https://s/b.mp4".data)), (3, ("1080".data))]
     ("https://s/a.mp4".data) ("https://s/b.mp4".data)
     (by decide) (by decide) (by decide) (by decide) (by decide)
     (by decide) (by decide) (by decide)⟩

/-- Witness for c6_redirect_priority: the first conjunct applied to
pageBothAnchors, whose REDIRECT_PATTERN_1 match is computed concretely. -/
theorem c6_redirect_priority_witness :
    reSearch REDIRECT_PATTERN_1 pageBothAnchors
      = some ([(1, ("https://ak.sv/watch/55/s".data))], (">w</a>".data))
    ∧ find_redirect_ultra_fast pageBothAnchors
        = some ((getGroup [(1, ("https://ak.sv/watch/55/s".data))] 1).getD []) :=
  ⟨by decide,
   c6_redirect_priority.1 pageBothAnchors
     [(1, ("https://ak.sv/watch/55/s".data))] (">w</a>".data) (by decide)⟩

/-- Under the limit, with all pending timestamps within one window of
each other, every check is admitted and the recorded timestamps are the
previous ones followed by the check instants. -/
theorem runChecks_all_allowed (N : Nat) (W : ℤ) :
    ∀ (ts prev : List ℤ),
      prev.length + ts.length ≤ N →
      (∀ a ∈ prev ++ ts, ∀ b ∈ prev ++ ts, a - b < W) →
      runChecks N W ts prev = (List.replicate ts.length true, prev ++ ts)
  | [], prev, _, _ => by simp [runChecks]
  | t :: ts', prev, hlen, hpair => by
    have hkeep : prev.filter (fun a => decide (t - a < W)) = prev := by
      apply List.filter_eq_self.mpr
      intro a ha
      have ht : t ∈ prev ++ t :: ts' := by simp
      have haa : a ∈ prev ++ t :: ts' := List.mem_append_left _ ha
      simpa using hpair t ht a haa
    have hcheck : check_rate_limit t N W prev = (true, prev ++ [t]) := by
      unfold check_rate_limit
      rw [hkeep]
      have : ¬ N ≤ prev.length := by simp at hlen; omega
      simp [this]
    have hpair' : ∀ a ∈ (prev ++ [t]) ++ ts', ∀ b ∈ (prev ++ [t]) ++ ts', a - b < W := by
      rw [List.append_assoc, List.singleton_append]
      exact hpair
    have hlen' : (prev ++ [t]).length + ts'.length ≤ N := by
      simp at hlen ⊢
      omega
    have ih := runChecks_all_allowed N W ts' (prev ++ [t]) hlen' hpair'
    unfold runChecks
    rw [hcheck]
    dsimp only
    rw [ih]
    simp [List.replicate_succ, List.append_assoc]

/-- C7: with request limit N and window W, for one client identity: N
consecutive checks whose instants all lie within one window of each
other, starting from an empty record, are all allowed; the (N+1)th check
inside the same window is denied and records no timestamp (the stored
list stays exactly the N earlier instants); and a later check whose
distance from every recorded instant has reached the window is allowed
again. -/
theorem c7_sliding_window_limit (N : Nat) (W : ℤ) (ts : List ℤ) (tN tLater : ℤ) :
    0 < N →
    ts.length = N →
    (∀ a ∈ ts ++ [tN], ∀ b ∈ ts ++ [tN], a - b < W) →
    (∀ a ∈ ts, W ≤ tLater - a) →
    runChecks N W ts [] = (List.replicate N true, ts)
    ∧ check_rate_limit tN N W ts = (false, ts)
    ∧ check_rate_limit tLater N W ts = (true, [tLater]) := by
  intro hN hlen hpair hlater
  refine ⟨?_, ?_, ?_⟩
  · have hp : ∀ a ∈ ([] : List ℤ) ++ ts, ∀ b ∈ ([] : List ℤ) ++ ts, a - b < W := by
      intro a ha b hb
      simp only [List.nil_append] at ha hb
      exact hpair a (List.mem_append_left _ ha) b (List.mem_append_left _ hb)
    have := runChecks_all_allowed N W ts [] (by simp [hlen]) hp
    simpa [hlen] using this
  · unfold check_rate_limit
    have hkeep : ts.filter (fun a => decide (tN - a < W)) = ts := by
      apply List.filter_eq_self.mpr
      intro a ha
      have htN : tN ∈ ts ++ [tN] := by simp
      have haa : a ∈ ts ++ [tN] := List.mem_append_left _ ha
      simpa using hpair tN htN a haa
    rw [hkeep]
    simp [hlen]
  · unfold check_rate_limit
    have hkeep : ts.filter (fun a => decide (tLater - a < W)) = [] := by
      apply List.filter_eq_nil_iff.mpr
      intro a ha
      have := hlater a ha
      simp
      linarith
    rw [hkeep]
    simp [Nat.pos_iff_ne_zero.mp hN]

/-- Witness for c7_sliding_window_limit with N = 2, W = 60, checks at
instants 0 and 1, an extra check at 2 and a later check at 61. -/
theorem c7_sliding_window_limit_witness :
    (0 : Nat) < 2
    ∧ ([(0 : ℤ), 1] ++ [(2 : ℤ)] = [(0 : ℤ), 1, 2])
    ∧ runChecks 2 60 [(0 : ℤ), 1] [] = (List.replicate 2 true, [(0 : ℤ), 1])
    ∧ check_rate_limit 2 2 60 [(0 : ℤ), 1] = (false, [(0 : ℤ), 1])
    ∧ check_rate_limit 61 2 60 [(0 : ℤ), 1] = (true, [(61 : ℤ)]) := by
  have h := c7_sliding_window_limit 2 60 [(0 : ℤ), 1] 2 61 (by decide) (by decide)
    (by decide) (by decide)
  exact ⟨by decide, by decide, h.1, h.2.1, h.2.2⟩

/-- C1 (spec-modelled cache): if the cache holds no entry for the URL, a
resolve call at time now1 returns a success outcome, and a second call
happens within the one-hour TTL, then the second call is served entirely
from the cache: it returns the same outcome, performs zero upstream
fetches, and leaves the cache unchanged — so the two calls together
issue exactly the first call's single fetch sequence (of one or two
fetches). -/
theorem c1_second_call_from_cache (cache : Cache) (url : List Char)
    (now1 now2 : ℤ) (r1 r2 r1' r2' : Fetched) (o : Outcome) (n : Nat) (c1 : Cache) :
    cache_lookup cache url = none →
    resolve_watch_cached cache url now1 r1 r2 = (.ok o, n, c1) →
    o.isSuccess = true →
    now2 - now1 ≤ CACHE_TTL →
    resolve_watch_cached c1 url now2 r1' r2' = (.ok o, 0, c1) ∧ 1 ≤ n ∧ n ≤ 2 := by
  intro hnone hrun hsucc httl
  have hget : cache_get cache url now1 = (none, cache) := by
    unfold cache_get
    rw [hnone]
  unfold resolve_watch_cached at hrun
  rw [hget] at hrun
  rcases hfv : fetch_video url r1 r2 with ⟨res, cnt⟩
  rw [hfv] at hrun
  cases res with
  | error e => simp at hrun
  | ok o' =>
    simp only [Prod.mk.injEq, Except.ok.injEq] at hrun
    obtain ⟨ho1, ho2, ho3⟩ := hrun
    rw [ho1] at ho3
    simp only [hsucc, if_true] at ho3
    subst ho3
    subst ho2
    refine ⟨?_, ?_⟩
    · have hlook : cache_lookup (cache_put cache url o now1) url = some ⟨o, now1⟩ := by
        unfold cache_lookup cache_put
        simp
      unfold resolve_watch_cached
      have hget2 : cache_get (cache_put cache url o now1) url now2
          = (some o, cache_put cache url o now1) := by
        unfold cache_get
        rw [hlook]
        simp [httl]
      rw [hget2]
    · have hb := fetch_video_snd_bounds url r1 r2
      rw [hfv] at hb
      exact hb

/-- Outcome of resolving twoSourcesPage, as cached in the C1 witness. -/
def cachedOutcome : Outcome :=
  .success ("https://ak.sv/watch/1".data)
    [⟨("720p".data), ("https://s/a.mp4".data), ("mp4".data)⟩,
     ⟨("1080p".data), ("https://s/b.mp4".data), ("mp4".data)⟩]

/-- Witness for c1_second_call_from_cache: a first call at time 0
resolves twoSourcesPage with one fetch and fills the cache; a second
call 100 time units later is answered from the cache with zero fetches —
even though both its fetch results are transport errors — leaving the
cache unchanged. -/
theorem c1_second_call_from_cache_witness :
    cache_lookup [] ("https://ak.sv/watch/1".data) = none
    ∧ resolve_watch_cached [] ("https://ak.sv/watch/1".data) 0
        (.ok ⟨200, twoSourcesPage⟩) (.ok ⟨200, []⟩)
      = (.ok cachedOutcome, 1, [(("https://ak.sv/watch/1".data), ⟨cachedOutcome, 0⟩)])
    ∧ cachedOutcome.isSuccess = true
    ∧ ((100 : ℤ) - 0 ≤ CACHE_TTL)
    ∧ resolve_watch_cached [(("https://ak.sv/watch/1".data), ⟨cachedOutcome, 0⟩)]
        ("https://ak.sv/watch/1".data) 100 (.error ("down".data)) (.error ("down".data))
      = (.ok cachedOutcome, 0, [(("https://ak.sv/watch/1".data), ⟨cachedOutcome, 0⟩)]) :=
  ⟨by decide, by decide, by decide, by decide,
   (c1_second_call_from_cache [] ("https://ak.sv/watch/1".data) 0 100
      (.ok ⟨200, twoSourcesPage⟩) (.ok ⟨200, []⟩)
      (.error ("down".data)) (.error ("down".data))
      cachedOutcome 1 [(("https://ak.sv/watch/1".data), ⟨cachedOutcome, 0⟩)]
      (by decide) (by decide) (by decide) (by decide)).1⟩

/-- Unfolding: stripThumb on the empty string. -/
theorem stripThumb_nil : stripThumb [] = [] := by
  unfold stripThumb
  rfl

/-- Unfolding: stripThumb at a match deletes the matched span. -/
theorem stripThumb_pos (c : Char) (r : List Char) (h : thumbAt (c :: r) = true) :
    stripThumb (c :: r)
      = stripThumb ((c :: r).drop
          (7 + (((c :: r).drop 7).takeWhile (fun d => d != '/')).length)) := by
  rw [stripThumb]
  simp [h]

/-- Unfolding: stripThumb keeps a non-matching head character. -/
theorem stripThumb_neg (c : Char) (r : List Char) (h : thumbAt (c :: r) = false) :
    stripThumb (c :: r) = c :: stripThumb r := by
  rw [stripThumb]
  simp [h]

/-- startsPat never holds on the empty string. -/
theorem startsPat_nil_right (w : List Char) : startsPat w [] = false := by
  cases w with
  | nil => decide
  | cons a w' =>
    unfold startsPat
    simp [List.isPrefixOf]

/-- startsPat with the empty pattern tests the head character. -/
theorem startsPat_nil_left (c : Char) (x : List Char) :
    startsPat [] (c :: x) = (c != '/') := by
  unfold startsPat
  simp [List.isPrefixOf]

/-- startsPat peels one pattern character against one input character. -/
theorem startsPat_cons (a c : Char) (w x : List Char) :
    startsPat (a :: w) (c :: x) = ((a == c) && startsPat w x) := by
  unfold startsPat
  simp only [List.isPrefixOf, List.length_cons, List.drop_succ_cons]
  rw [Bool.and_assoc]

/-- Dropping the length of the taken prefix is dropWhile. -/
theorem drop_length_takeWhile (p : Char → Bool) (l : List Char) :
    l.drop (l.takeWhile p).length = l.dropWhile p := by
  induction l with
  | nil => rfl
  | cons c l ih =>
    by_cases h : p c
    · simp [List.takeWhile_cons, List.dropWhile_cons, h, ih]
    · simp [List.takeWhile_cons, List.dropWhile_cons, h]

/-- The head of a dropWhile result, when any, falsifies the predicate. -/
theorem dropWhile_head_false (p : Char → Bool) (l : List Char) :
    l.dropWhile p = [] ∨ ∃ c t, l.dropWhile p = c :: t ∧ p c = false := by
  induction l with
  | nil => exact Or.inl rfl
  | cons c l ih =>
    by_cases h : p c
    · simpa [List.dropWhile_cons, h] using ih
    · exact Or.inr ⟨c, l, by simp [List.dropWhile_cons, h], by simp [h]⟩

/-- The span deleted at a match ends exactly at the next slash (or the
end of the string). -/
theorem thumb_drop_eq (s : List Char) :
    s.drop (7 + ((s.drop 7).takeWhile (fun d => d != '/')).length)
      = (s.drop 7).dropWhile (fun d => d != '/') := by
  rw [← List.drop_drop, drop_length_takeWhile]

/-- What remains after a deleted match is empty or starts with a slash. -/
theorem slash_headed_drop (s : List Char) :
    s.drop (7 + ((s.drop 7).takeWhile (fun d => d != '/')).length) = []
      ∨ ∃ t, s.drop (7 + ((s.drop 7).takeWhile (fun d => d != '/')).length) = '/' :: t := by
  rw [thumb_drop_eq]
  rcases dropWhile_head_false (fun d => d != '/') (s.drop 7) with h | ⟨c, t, h1, h2⟩
  · exact Or.inl h
  · right
    have hc : c = '/' := by simpa using h2
    exact ⟨t, by rw [h1, hc]⟩

/-- stripThumb maps empty-or-slash-headed strings to empty-or-slash-headed
strings. -/
theorem stripThumb_slash_headed :
    ∀ s : List Char, (s = [] ∨ ∃ t, s = '/' :: t) →
      (stripThumb s = [] ∨ ∃ t, stripThumb s = '/' :: t) := by
  intro s
  induction s using stripThumb.induct with
  | case1 =>
    intro _
    rw [stripThumb_nil]
    exact Or.inl rfl
  | case2 c s' h ih =>
    intro _
    rw [stripThumb_pos c s' h]
    exact ih (slash_headed_drop (c :: s'))
  | case3 c s' h ih =>
    intro hs
    have h' : thumbAt (c :: s') = false := by simpa using h
    rw [stripThumb_neg c s' h']
    rcases hs with h0 | ⟨t, ht⟩
    · exact absurd h0 (by simp)
    · right
      have : c = '/' := by
        have := congrArg (fun l => List.head? l) ht
        simpa using this
      exact ⟨stripThumb s', by rw [this]⟩

/-- Membership in a dropLast is preserved by consing in front. -/
theorem mem_dropLast_cons (a ch : Char) (w : List Char) (h : ch ∈ w.dropLast) :
    ch ∈ (a :: w).dropLast := by
  cases w with
  | nil => simp at h
  | cons b w' =>
    rw [List.dropLast_cons₂]
    exact List.mem_cons_of_mem a h

/-- Pulling a startsPat fact back through stripThumb: when the slash only
occurs as the final character of the pattern `w`, a match of `w` plus a
non-slash character at the head of the stripped string forces the same
match at the head of the original string. -/
theorem startsPat_stripThumb : ∀ (n : Nat) (s : List Char), s.length ≤ n →
    ∀ (w : List Char), (∀ c ∈ w.dropLast, c ≠ '/') →
    startsPat w (stripThumb s) = true → startsPat w s = true := by
  intro n
  induction n with
  | zero =>
    intro s hs w hw hsp
    have hnil : s = [] := List.length_eq_zero.mp (Nat.le_zero.mp hs)
    subst hnil
    rw [stripThumb_nil, startsPat_nil_right] at hsp
    exact absurd hsp (by simp)
  | succ n ih =>
    intro s hs w hw hsp
    cases s with
    | nil =>
      rw [stripThumb_nil, startsPat_nil_right] at hsp
      exact absurd hsp (by simp)
    | cons c r =>
      by_cases hth : thumbAt (c :: r) = true
      · rw [stripThumb_pos c r hth] at hsp
        have hD := stripThumb_slash_headed _ (slash_headed_drop (c :: r))
        cases w with
        | nil =>
          rcases hD with h0 | ⟨t, ht⟩
          · rw [h0, startsPat_nil_right] at hsp
            exact absurd hsp (by simp)
          · rw [ht, startsPat_nil_left] at hsp
            simp at hsp
        | cons a w' =>
          by_cases ha : a = '/'
          · subst ha
            cases w' with
            | cons b w'' =>
              exfalso
              have hmem : '/' ∈ ('/' :: b :: w'').dropLast := by
                rw [List.dropLast_cons₂]
                exact List.mem_cons_self _ _
              exact hw '/' hmem rfl
            | nil =>
              have hsplit : ("/thumb/".data) = '/' :: ("thumb/".data) := rfl
              unfold thumbAt at hth
              rw [hsplit, startsPat_cons] at hth
              obtain ⟨h1, h2⟩ := Bool.and_eq_true_iff.mp hth
              have hsplit2 : ("thumb/".data) = 't' :: ("humb/".data) := rfl
              cases r with
              | nil =>
                rw [startsPat_nil_right] at h2
                exact absurd h2 (by simp)
              | cons d r' =>
                rw [hsplit2, startsPat_cons] at h2
                obtain ⟨h3, _⟩ := Bool.and_eq_true_iff.mp h2
                have hd : 't' = d := eq_of_beq h3
                rw [startsPat_cons, startsPat_nil_left]
                rw [h1, ← hd]
                decide
          · rcases hD with h0 | ⟨t, ht⟩
            · rw [h0, startsPat_nil_right] at hsp
              exact absurd hsp (by simp)
            · rw [ht, startsPat_cons] at hsp
              obtain ⟨h1, _⟩ := Bool.and_eq_true_iff.mp hsp
              exact absurd (eq_of_beq h1) ha
      · have hth' : thumbAt (c :: r) = false := by simpa using hth
        rw [stripThumb_neg c r hth'] at hsp
        cases w with
        | nil =>
          rw [startsPat_nil_left] at hsp
          rw [startsPat_nil_left]
          exact hsp
        | cons a w' =>
          rw [startsPat_cons] at hsp
          obtain ⟨h1, h2⟩ := Bool.and_eq_true_iff.mp hsp
          have hw' : ∀ ch ∈ w'.dropLast, ch ≠ '/' := by
            intro ch hch
            exact hw ch (mem_dropLast_cons a ch w' hch)
          have hr : r.length ≤ n := by
            simp only [List.length_cons] at hs
            omega
          have hres := ih r hr w' hw' h2
          rw [startsPat_cons]
          rw [h1, hres]
          rfl

/-- A non-match at the head survives stripping of the tail. -/
theorem thumbAt_stripThumb_false (c : Char) (r : List Char)
    (h : thumbAt (c :: r) = false) : thumbAt (c :: stripThumb r) = false := by
  cases hx : thumbAt (c :: stripThumb r) with
  | false => rfl
  | true =>
    exfalso
    have hsplit : ("/thumb/".data) = '/' :: ("thumb/".data) := rfl
    unfold thumbAt at hx h
    rw [hsplit, startsPat_cons] at hx h
    obtain ⟨h1, h2⟩ := Bool.and_eq_true_iff.mp hx
    have h2' := startsPat_stripThumb r.length r (le_refl _) ("thumb/".data)
      (by decide) h2
    rw [h1, h2'] at h
    simp at h

/-- The output of stripThumb contains no match of the thumbnail pattern. -/
theorem noThumbIn_stripThumb : ∀ s : List Char, noThumbIn (stripThumb s) = true := by
  intro s
  induction s using stripThumb.induct with
  | case1 =>
    rw [stripThumb_nil]
    rfl
  | case2 c s' h ih =>
    rw [stripThumb_pos c s' h]
    exact ih
  | case3 c s' h ih =>
    have h' : thumbAt (c :: s') = false := by simpa using h
    rw [stripThumb_neg c s' h']
    show ((!thumbAt (c :: stripThumb s')) && noThumbIn (stripThumb s')) = true
    rw [thumbAt_stripThumb_false c s' h', ih]
    rfl

/-- On a string with no thumbnail match, stripThumb is the identity. -/
theorem stripThumb_of_noThumbIn : ∀ s : List Char, noThumbIn s = true → stripThumb s = s := by
  intro s
  induction s with
  | nil => intro _; exact stripThumb_nil
  | cons c r ih =>
    intro hn
    have hn' : ((!thumbAt (c :: r)) && noThumbIn r) = true := hn
    obtain ⟨h1, h2⟩ := Bool.and_eq_true_iff.mp hn'
    have h1' : thumbAt (c :: r) = false := by simpa using h1
    rw [stripThumb_neg c r h1', ih h2]

/-- C8: the thumbnail-stripping normalization is idempotent — normalizing
twice equals normalizing once for every URL — and a URL containing no
thumbnail path segment is returned unchanged. -/
theorem c8_normalization_idempotent :
    (∀ u : List Char,
       get_high_quality_image (get_high_quality_image u) = get_high_quality_image u)
    ∧ (∀ u : List Char, noThumbIn u = true → get_high_quality_image u = u) := by
  have hstrip : ∀ s : List Char, stripThumb (stripThumb s) = stripThumb s :=
    fun s => stripThumb_of_noThumbIn _ (noThumbIn_stripThumb s)
  constructor
  · intro u
    unfold get_high_quality_image
    by_cases hu : u = []
    · simp [hu]
    · simp only [hu, if_false]
      by_cases hsu : stripThumb u = []
      · simp [hsu]
      · simp [hsu, hstrip]
  · intro u hn
    unfold get_high_quality_image
    by_cases hu : u = []
    · simp [hu]
    · simp only [hu, if_false]
      exact stripThumb_of_noThumbIn u hn

/-- Witness for c8_normalization_idempotent: a URL with no thumbnail
segment is left unchanged. -/
theorem c8_normalization_idempotent_witness :
    noThumbIn ("https://ak.sv/uploads/full.jpg".data) = true
    ∧ get_high_quality_image ("https://ak.sv/uploads/full.jpg".data)
        = ("https://ak.sv/uploads/full.jpg".data) :=
  ⟨by decide,
   c8_normalization_idempotent.2 ("https://ak.sv/uploads/full.jpg".data) (by decide)⟩
